import Mathlib

/-!
# tracker_with_cloud_node: fusion of 2-D detections with a point cloud

A shallow embedding of `src/tracker_with_cloud_node.cpp`.

Conventions of the embedding

* A finite `float` / `double` is an exact rational: rounding is not modelled.
* Overflow is modelled where the sentinels of the source make it reachable:
  the extent subtraction of `createBoundingBox` on the sentinels of
  `pcl::getMinMax3D` (`fsub`); the sizes of a `Detection3D` range over
  `FloatVal` (finite, the two infinities, NaN). A centroid distance that is not
  below `FLT_MAX` in the model is one that is `FLT_MAX` or overflows in the
  source: neither is below the initial `min_distance`.
* The collaborators of the node are parameters: the pinhole projection
  (`CameraModel`), the outcome of each `lookupTransform` call, the clustering
  primitive (`ec.extract`) and the numeric functions (`MathLib`).
* A value the source leaves uninitialised (the centroid of an empty cloud) is
  an explicit input, given anew for every declaration of the variable
  (`Uninit`): it is indeterminate and may differ from one call to the next.
-/

namespace TrackerWithCloud

/-! ## Scalars -/

/-- Largest finite single precision value, `std::numeric_limits<float>::max()`,
which is also `FLT_MAX`: `2^128 - 2^104`. -/
def FLT_MAX : ℚ := 340282346638528859811704183484516925440

/-- Value of a floating point variable that may be non-finite. -/
inductive FloatVal where
  | nan : FloatVal
  | negInf : FloatVal
  | fin (q : ℚ) : FloatVal
  | posInf : FloatVal
  deriving DecidableEq

/-- The test `std::isfinite`. -/
def FloatVal.isfinite : FloatVal → Bool
  | .fin _ => true
  | _ => false

/-- The comparison `v >= 0` of IEEE arithmetic: false on NaN. -/
def FloatVal.nonneg : FloatVal → Prop
  | .fin q => 0 ≤ q
  | .posInf => True
  | _ => False

instance (v : FloatVal) : Decidable v.nonneg := by
  cases v <;> unfold FloatVal.nonneg <;> infer_instance

/-- Single precision subtraction `a - b` of two finite values: exact when the
difference is in range, an infinity when it overflows. -/
def fsub (a b : ℚ) : FloatVal :=
  if a - b > FLT_MAX then .posInf
  else if a - b < -FLT_MAX then .negInf
  else .fin (a - b)

/-! ## Messages and geometric types -/

/-- A `pcl::PointXYZ`. -/
structure PointXYZ where
  x : ℚ
  y : ℚ
  z : ℚ
  deriving DecidableEq

/-- A `pcl::PointCloud<pcl::PointXYZ>`: its `points` vector. -/
abbrev PointCloud := List PointXYZ

/-- An `Eigen::Vector4f`. -/
structure Vector4f where
  x : ℚ
  y : ℚ
  z : ℚ
  w : ℚ
  deriving DecidableEq

/-- An `Eigen::Matrix3f`, row by row. -/
structure Matrix3f where
  m00 : ℚ
  m01 : ℚ
  m02 : ℚ
  m10 : ℚ
  m11 : ℚ
  m12 : ℚ
  m20 : ℚ
  m21 : ℚ
  m22 : ℚ
  deriving DecidableEq

/-- An `Eigen::Affine3f`: linear part and translation. -/
structure Affine3f where
  linear : Matrix3f
  tx : ℚ
  ty : ℚ
  tz : ℚ
  deriving DecidableEq

/-- A `geometry_msgs::Quaternion`. -/
structure Quaternion where
  x : ℚ
  y : ℚ
  z : ℚ
  w : ℚ
  deriving DecidableEq

/-- A `geometry_msgs::Pose`: position and orientation. -/
structure Pose where
  px : ℚ
  py : ℚ
  pz : ℚ
  orientation : Quaternion
  deriving DecidableEq

/-- A `geometry_msgs::Vector3` of doubles that may be non-finite. -/
structure Vector3 where
  x : FloatVal
  y : FloatVal
  z : FloatVal
  deriving DecidableEq

/-- A `std_msgs::Header`. -/
structure Header where
  frame_id : String
  stamp : Nat
  deriving DecidableEq

/-- A `vision_msgs::ObjectHypothesisWithPose`, carried over unchanged. -/
structure ObjectHypothesisWithPose where
  id : Nat
  score : ℚ
  deriving DecidableEq

/-- A `vision_msgs::Detection2D`: `bbox.center.x`, `bbox.center.y`,
`bbox.size_x`, `bbox.size_y` and `results`. -/
structure Detection2D where
  center_x : ℚ
  center_y : ℚ
  size_x : ℚ
  size_y : ℚ
  results : List ObjectHypothesisWithPose
  deriving DecidableEq

/-- A `vision_msgs::Detection3D`: `bbox.center`, `bbox.size` and `results`. -/
structure Detection3D where
  center : Pose
  size : Vector3
  results : List ObjectHypothesisWithPose
  deriving DecidableEq

/-- A `vision_msgs::Detection3DArray`. -/
structure Detection3DArray where
  header : Header
  detections : List Detection3D
  deriving DecidableEq

/-- A `sensor_msgs::PointCloud2` holding `PointXYZ` data. -/
structure PointCloud2 where
  header : Header
  points : PointCloud
  deriving DecidableEq

/-- A `visualization_msgs::Marker`. -/
structure Marker where
  header : Header
  ns : String
  id : Nat
  type : Nat
  action : Nat
  pose : Pose
  scale : Vector3
  color_r : ℚ
  color_g : ℚ
  color_b : ℚ
  color_a : ℚ
  lifetime : ℚ
  deriving DecidableEq

/-- The constant `visualization_msgs::Marker::CUBE`. -/
def Marker.CUBE : Nat := 1

/-- The constant `visualization_msgs::Marker::ADD`. -/
def Marker.ADD : Nat := 0

/-! ## Collaborators -/

/-- The pinhole model `cam_model_`: its frame and `project3dToPixel`. -/
structure CameraModel where
  tfFrame : String
  project3dToPixel : PointXYZ → ℚ × ℚ

/-- A rigid transform as `transformPointCloud` applies it, point by point. -/
abbrev Transform := PointXYZ → PointXYZ

/-- The numeric library functions the node calls. -/
structure MathLib where
  sqrt : ℚ → ℚ
  atan2 : ℚ → ℚ → ℚ
  cos : ℚ → ℚ
  sin : ℚ → ℚ
  /-- Eigen: `Quaternionf q(m.rotation())` for the linear part `m`. -/
  quaternion : Matrix3f → Quaternion

/-- The members of `TrackerWithCloudNode` the pipeline reads: the camera
model, the clustering parameters, and the library behind it. `extract tol lo hi
cloud` is `ec.extract(cluster_indices)` after the four setters of
`euclideanClusterExtraction`. -/
structure Node where
  cam_model : CameraModel
  cluster_tolerance : ℚ
  min_cluster_size : Int
  max_cluster_size : Int
  extract : ℚ → Int → Int → PointCloud → List (List Nat)
  lib : MathLib

/-- The indeterminate values that one iteration of the outer loop of
`projectCloud` may read: `centroid` is the content of the `Eigen::Vector4f
centroid` that `createBoundingBox` declares at line 167 without initialising it,
`cluster_centroid k` that of the one declared at line 144 in the iteration of
the cluster loop at position `k`. Each is read only if `compute3DCentroid` is
handed an empty cloud, which leaves the variable unwritten. -/
structure Uninit where
  centroid : Vector4f
  cluster_centroid : Nat → Vector4f

/-! ## Library functions, as the node uses them -/

/-- The function `pcl::compute3DCentroid`: the mean of the points, with the
fourth, homogeneous coordinate set to 1; on an empty cloud it returns without
writing the centroid, which keeps the content `uninit` it had at the call. -/
def compute3DCentroid (uninit : Vector4f) (cloud : PointCloud) : Vector4f :=
  if cloud.isEmpty then uninit
  else
    let n : ℚ := cloud.length
    { x := (cloud.map PointXYZ.x).sum / n
      y := (cloud.map PointXYZ.y).sum / n
      z := (cloud.map PointXYZ.z).sum / n
      w := 1 }

/-- The Eigen method `norm()` of a `Vector4f`: the root of the sum of the
squares of the four coordinates. -/
def Vector4f.norm (lib : MathLib) (v : Vector4f) : ℚ :=
  lib.sqrt (v.x * v.x + v.y * v.y + v.z * v.z + v.w * v.w)

/-- The function `pcl::getMinMax3D`: componentwise minimum and maximum,
starting from `FLT_MAX` and `-FLT_MAX`. -/
def getMinMax3D (cloud : PointCloud) : PointXYZ × PointXYZ :=
  cloud.foldl
    (fun (acc : PointXYZ × PointXYZ) (pt : PointXYZ) =>
      ({ x := min acc.1.x pt.x, y := min acc.1.y pt.y, z := min acc.1.z pt.z },
       { x := max acc.2.x pt.x, y := max acc.2.y pt.y, z := max acc.2.z pt.z }))
    ({ x := FLT_MAX, y := FLT_MAX, z := FLT_MAX },
     { x := -FLT_MAX, y := -FLT_MAX, z := -FLT_MAX })

/-- Product of two 3 by 3 matrices. -/
def Matrix3f.mul (a b : Matrix3f) : Matrix3f :=
  { m00 := a.m00 * b.m00 + a.m01 * b.m10 + a.m02 * b.m20
    m01 := a.m00 * b.m01 + a.m01 * b.m11 + a.m02 * b.m21
    m02 := a.m00 * b.m02 + a.m01 * b.m12 + a.m02 * b.m22
    m10 := a.m10 * b.m00 + a.m11 * b.m10 + a.m12 * b.m20
    m11 := a.m10 * b.m01 + a.m11 * b.m11 + a.m12 * b.m21
    m12 := a.m10 * b.m02 + a.m11 * b.m12 + a.m12 * b.m22
    m20 := a.m20 * b.m00 + a.m21 * b.m10 + a.m22 * b.m20
    m21 := a.m20 * b.m01 + a.m21 * b.m11 + a.m22 * b.m21
    m22 := a.m20 * b.m02 + a.m21 * b.m12 + a.m22 * b.m22 }

/-- Determinant of a 3 by 3 matrix. -/
def Matrix3f.det (a : Matrix3f) : ℚ :=
  a.m00 * (a.m11 * a.m22 - a.m12 * a.m21)
    - a.m01 * (a.m10 * a.m22 - a.m12 * a.m20)
    + a.m02 * (a.m10 * a.m21 - a.m11 * a.m20)

/-- Inverse of a 3 by 3 matrix by cofactors. -/
def Matrix3f.inverse (a : Matrix3f) : Matrix3f :=
  let d := a.det
  { m00 := (a.m11 * a.m22 - a.m12 * a.m21) / d
    m01 := (a.m02 * a.m21 - a.m01 * a.m22) / d
    m02 := (a.m01 * a.m12 - a.m02 * a.m11) / d
    m10 := (a.m12 * a.m20 - a.m10 * a.m22) / d
    m11 := (a.m00 * a.m22 - a.m02 * a.m20) / d
    m12 := (a.m02 * a.m10 - a.m00 * a.m12) / d
    m20 := (a.m10 * a.m21 - a.m11 * a.m20) / d
    m21 := (a.m01 * a.m20 - a.m00 * a.m21) / d
    m22 := (a.m00 * a.m11 - a.m01 * a.m10) / d }

/-- The transform `Eigen::Affine3f::Identity()`. -/
def Affine3f.Identity : Affine3f :=
  { linear := { m00 := 1, m01 := 0, m02 := 0, m10 := 0, m11 := 1, m12 := 0,
                m20 := 0, m21 := 0, m22 := 1 }
    tx := 0, ty := 0, tz := 0 }

/-- The rotation matrix of `Eigen::AngleAxisf(theta, Eigen::Vector3f::UnitZ())`. -/
def AngleAxisUnitZ (lib : MathLib) (theta : ℚ) : Matrix3f :=
  { m00 := lib.cos theta, m01 := -lib.sin theta, m02 := 0
    m10 := lib.sin theta, m11 := lib.cos theta, m12 := 0
    m20 := 0, m21 := 0, m22 := 1 }

/-- The method `rotate`: multiplies the linear part on the right. -/
def Affine3f.rotate (t : Affine3f) (r : Matrix3f) : Affine3f :=
  { t with linear := t.linear.mul r }

/-- The method `inverse()` of an affine transform. -/
def Affine3f.inverse (t : Affine3f) : Affine3f :=
  let inv := t.linear.inverse
  { linear := inv
    tx := -(inv.m00 * t.tx + inv.m01 * t.ty + inv.m02 * t.tz)
    ty := -(inv.m10 * t.tx + inv.m11 * t.ty + inv.m12 * t.tz)
    tz := -(inv.m20 * t.tx + inv.m21 * t.ty + inv.m22 * t.tz) }

/-- An affine transform applied to a point, as `pcl::transformPointCloud`
does for every point of a cloud. -/
def Affine3f.apply (t : Affine3f) (p : PointXYZ) : PointXYZ :=
  { x := t.linear.m00 * p.x + t.linear.m01 * p.y + t.linear.m02 * p.z + t.tx
    y := t.linear.m10 * p.x + t.linear.m11 * p.y + t.linear.m12 * p.z + t.ty
    z := t.linear.m20 * p.x + t.linear.m21 * p.y + t.linear.m22 * p.z + t.tz }

/-- The product of an affine transform and a homogeneous `Vector4f`. -/
def Affine3f.mulVec (t : Affine3f) (v : Vector4f) : Vector4f :=
  { x := t.linear.m00 * v.x + t.linear.m01 * v.y + t.linear.m02 * v.z + t.tx * v.w
    y := t.linear.m10 * v.x + t.linear.m11 * v.y + t.linear.m12 * v.z + t.ty * v.w
    z := t.linear.m20 * v.x + t.linear.m21 * v.y + t.linear.m22 * v.z + t.tz * v.w
    w := v.w }

/-- The function `pcl::transformPointCloud(cloud, out, transform)`. -/
def transformPointCloud (cloud : PointCloud) (t : Affine3f) : PointCloud :=
  cloud.map t.apply

/-! ## The node -/

/-- The method `msg2TransformedCloud`. `lookup` is the outcome of
`lookupTransform(cam_model_.tfFrame(), frame_id, stamp)`: `none` when it throws
`tf2::TransformException`, in which case the cloud declared at the top is
returned as it is, empty. -/
def msg2TransformedCloud (lookup : Option Transform) (cloud_msg : PointCloud2) : PointCloud :=
  match lookup with
  | some tf => cloud_msg.points.map tf
  | none => []

/-- The method `cloud2TransformedCloud`, with `lookup` the outcome of
`lookupTransform(header.frame_id, cam_model_.tfFrame(), header.stamp)`. -/
def cloud2TransformedCloud (lookup : Option Transform) (cloud : PointCloud) : PointCloud :=
  match lookup with
  | some tf => cloud.map tf
  | none => []

/-- The condition of the `if` at lines 86 to 89: depth and box membership of
the projected pixel. -/
def inBox (cam : CameraModel) (detection : Detection2D) (point : PointXYZ) : Bool :=
  let uv := cam.project3dToPixel point
  decide (point.z > 0 ∧ uv.1 > 0 ∧ uv.1 ≥ detection.center_x - detection.size_x / 2 ∧
    uv.1 ≤ detection.center_x + detection.size_x / 2 ∧
    uv.2 ≥ detection.center_y - detection.size_y / 2 ∧
    uv.2 ≤ detection.center_y + detection.size_y / 2)

/-- The inner loop of `projectCloud` (lines 82 to 93): every point of the
cloud that passes the test is pushed onto `detection_cloud_raw`. -/
def frustumLoop (cam : CameraModel) (detection : Detection2D) (cloud : PointCloud)
    (detection_cloud_raw : PointCloud) : PointCloud :=
  cloud.foldl
    (fun raw point => if inBox cam detection point then raw ++ [point] else raw)
    detection_cloud_raw

/-- The points `cloud.points[indice]` of one `pcl::PointIndices`. The indices
that `extract` returns are valid; for an invalid one the model reads the
origin. -/
def gather (cloud : PointCloud) (indices : List Nat) : PointCloud :=
  indices.map (fun indice => cloud.getD indice { x := 0, y := 0, z := 0 })

/-- The value of `distance` at line 150 for one cluster: the norm of the
centroid of its points, `uninit` being the content of the centroid before
`compute3DCentroid` is called. -/
def clusterDistance (node : Node) (cloud : PointCloud) (uninit : Vector4f)
    (cluster_indice : List Nat) : ℚ :=
  (compute3DCentroid uninit (gather cloud cluster_indice)).norm node.lib

/-- The body of the loop of `euclideanClusterExtraction` (lines 143 to 155) on
the pair `(min_distance, closest_cluster)`. -/
def clusterStep (node : Node) (cloud : PointCloud) (uninit : Vector4f) (acc : ℚ × PointCloud)
    (cluster_indice : List Nat) : ℚ × PointCloud :=
  let cloud_cluster := gather cloud cluster_indice
  let distance := clusterDistance node cloud uninit cluster_indice
  if distance < acc.1 then (distance, cloud_cluster) else acc

/-- The loop of `euclideanClusterExtraction` (lines 141 to 156) from the
cluster at position `k` on. -/
def clusterLoop (node : Node) (cloud : PointCloud) (uninit : Nat → Vector4f) :
    Nat → ℚ × PointCloud → List (List Nat) → ℚ × PointCloud
  | _, acc, [] => acc
  | k, acc, cluster_indice :: rest =>
    clusterLoop node cloud uninit (k + 1) (clusterStep node cloud (uninit k) acc cluster_indice)
      rest

/-- The method `euclideanClusterExtraction`. -/
def euclideanClusterExtraction (node : Node) (uninit : Nat → Vector4f) (cloud : PointCloud) :
    PointCloud :=
  let cluster_indices :=
    node.extract node.cluster_tolerance node.min_cluster_size node.max_cluster_size cloud
  (clusterLoop node cloud uninit 0 (FLT_MAX, []) cluster_indices).2

/-- The `Detection3D` that `createBoundingBox` builds from a cloud; `uninit`
is the content of its centroid variable before `compute3DCentroid` is called. -/
def boundingBox (node : Node) (uninit : Vector4f) (cloud : PointCloud)
    (detections_results : List ObjectHypothesisWithPose) : Detection3D :=
  let centroid := compute3DCentroid uninit cloud
  let theta := -(node.lib.atan2 centroid.y (node.lib.sqrt (centroid.x ^ 2 + centroid.z ^ 2)))
  let transform := Affine3f.Identity.rotate (AngleAxisUnitZ node.lib theta)
  let transformed_cloud := transformPointCloud cloud transform
  let min_pt := (getMinMax3D transformed_cloud).1
  let max_pt := (getMinMax3D transformed_cloud).2
  let transformed_bbox_center : Vector4f :=
    { x := (min_pt.x + max_pt.x) / 2, y := (min_pt.y + max_pt.y) / 2,
      z := (min_pt.z + max_pt.z) / 2, w := 1 }
  let bbox_center := transform.inverse.mulVec transformed_bbox_center
  { center :=
      { px := bbox_center.x, py := bbox_center.y, pz := bbox_center.z
        orientation := node.lib.quaternion transform.inverse.linear }
    size :=
      { x := fsub max_pt.x min_pt.x, y := fsub max_pt.y min_pt.y, z := fsub max_pt.z min_pt.z }
    results := detections_results }

/-- The method `createBoundingBox`: the box is pushed onto the detections of
the message, whatever the cloud. -/
def createBoundingBox (node : Node) (uninit : Vector4f) (detections3d_msg : Detection3DArray)
    (cloud : PointCloud) (detections_results : List ObjectHypothesisWithPose) :
    Detection3DArray :=
  { detections3d_msg with
    detections :=
      detections3d_msg.detections ++ [boundingBox node uninit cloud detections_results] }

/-- The variables of `projectCloud` that live across iterations of its outer
loop. -/
structure LoopState where
  detection_cloud_raw : PointCloud
  detections3d_msg : Detection3DArray
  combine_detection_cloud : PointCloud

/-- One iteration of the outer loop of `projectCloud` (lines 81 to 103).
`lookup` is the outcome of the transform lookup of this iteration, `uninit` the
indeterminate values it may read. -/
def projectStep (node : Node) (cloud : PointCloud) (lookup : Option Transform)
    (uninit : Uninit) (st : LoopState) (detection : Detection2D) : LoopState :=
  let detection_cloud_raw := frustumLoop node.cam_model detection cloud st.detection_cloud_raw
  let detection_cloud := cloud2TransformedCloud lookup detection_cloud_raw
  if !detection_cloud.isEmpty then
    let closest_detection_cloud :=
      euclideanClusterExtraction node uninit.cluster_centroid detection_cloud
    { detection_cloud_raw := []
      detections3d_msg :=
        createBoundingBox node uninit.centroid st.detections3d_msg closest_detection_cloud
          detection.results
      combine_detection_cloud := st.combine_detection_cloud ++ closest_detection_cloud }
  else
    { st with detection_cloud_raw := detection_cloud_raw }

/-- The outer loop of `projectCloud` from iteration `i` on. `lookups k` is the
outcome of the transform lookup made in iteration `k`, `uninit k` the
indeterminate values that iteration may read. -/
def projectLoop (node : Node) (cloud : PointCloud) (lookups : Nat → Option Transform)
    (uninit : Nat → Uninit) : Nat → LoopState → List Detection2D → LoopState
  | _, st, [] => st
  | i, st, detection :: rest =>
    projectLoop node cloud lookups uninit (i + 1)
      (projectStep node cloud (lookups i) (uninit i) st detection) rest

/-- The state of `projectCloud` when it enters its outer loop. -/
def LoopState.init (header : Header) : LoopState :=
  { detection_cloud_raw := []
    detections3d_msg := { header := header, detections := [] }
    combine_detection_cloud := [] }

/-- The method `projectCloud`. -/
def projectCloud (node : Node) (lookups : Nat → Option Transform) (uninit : Nat → Uninit)
    (cloud : PointCloud) (detections2d_msg : List Detection2D) (header : Header) :
    Detection3DArray × PointCloud2 :=
  let st := projectLoop node cloud lookups uninit 0 (LoopState.init header) detections2d_msg
  (st.detections3d_msg, { header := header, points := st.combine_detection_cloud })

/-- The frustum subset of the detection at position `k`: the content of
`detection_cloud_raw` when iteration `k` hands it to `cloud2TransformedCloud`. -/
def frustumSubset (node : Node) (lookups : Nat → Option Transform) (uninit : Nat → Uninit)
    (cloud : PointCloud) (detections2d_msg : List Detection2D) (header : Header) (k : Nat) :
    Option PointCloud :=
  match detections2d_msg.get? k with
  | none => none
  | some detection =>
    some (frustumLoop node.cam_model detection cloud
      (projectLoop node cloud lookups uninit 0 (LoopState.init header)
        (detections2d_msg.take k)).detection_cloud_raw)

/-- The marker that `createMarkerArray` builds for the detection at index `i`. -/
def mkMarker (header : Header) (i : Nat) (d : Detection3D) : Marker :=
  { header := header
    ns := "detection"
    id := i
    type := Marker.CUBE
    action := Marker.ADD
    pose := d.center
    scale := { x := d.size.x, y := d.size.y, z := d.size.z }
    color_r := 0
    color_g := 1
    color_b := 0
    color_a := 1 / 2
    lifetime := 1 / 2 }

/-- The method `createMarkerArray`: a loop over the indices of the array. -/
def createMarkerArray (detections3d_msg : Detection3DArray) : List Marker :=
  (List.range detections3d_msg.detections.length).foldl
    (fun markers i =>
      match detections3d_msg.detections.get? i with
      | none => markers
      | some d =>
        if d.size.x.isfinite && d.size.y.isfinite && d.size.z.isfinite then
          markers ++ [mkMarker detections3d_msg.header i d]
        else markers)
    []

/-- The method `syncCallback`: the three messages it publishes. `node` holds
the camera model rebuilt from the camera info of this call, `lookup0` is the
outcome of the lookup of `msg2TransformedCloud`, `lookups` those of
`projectCloud` and `uninit` the indeterminate values `projectCloud` may read. -/
def syncCallback (node : Node) (lookup0 : Option Transform) (lookups : Nat → Option Transform)
    (uninit : Nat → Uninit) (cloud_msg : PointCloud2) (detections2d_msg : List Detection2D) :
    Detection3DArray × PointCloud2 × List Marker :=
  let transformed_cloud := msg2TransformedCloud lookup0 cloud_msg
  let out :=
    projectCloud node lookups uninit transformed_cloud detections2d_msg cloud_msg.header
  let marker_array_msg := createMarkerArray out.1
  (out.1, out.2, marker_array_msg)

/-! ## Concrete inputs -/

/-- An instance of the numeric library over the rationals. An angle is
measured by the tangent of its half, so that negation, `cos` and `sin` are
rational operations and `cos (-(atan2 y x))` is `x / sqrt (x^2 + y^2)`,
`sin (-(atan2 y x))` is `-y / sqrt (x^2 + y^2)` whenever the root is rational
and `0 < x`. The root is `Rat.sqrt`: exact on the square of a rational, and
otherwise the quotient of the integer roots of the numerator and of the
denominator. The quaternion follows the branch of Eigen for a positive trace,
with the same root. -/
def exactLib : MathLib where
  sqrt := Rat.sqrt
  atan2 := fun y x => if x = 0 ∧ y = 0 then 0 else y / (Rat.sqrt (x ^ 2 + y ^ 2) + x)
  cos := fun t => (1 - t ^ 2) / (1 + t ^ 2)
  sin := fun t => 2 * t / (1 + t ^ 2)
  quaternion := fun m =>
    let t := Rat.sqrt (m.m00 + m.m11 + m.m22 + 1)
    { w := t / 2, x := (m.m21 - m.m12) * (1 / (2 * t)), y := (m.m02 - m.m20) * (1 / (2 * t)),
      z := (m.m10 - m.m01) * (1 / (2 * t)) }

/-- A pinhole camera with unit focal length and principal point at the origin
of the image. -/
def exCam : CameraModel :=
  { tfFrame := "camera", project3dToPixel := fun p => (p.x / p.z, p.y / p.z) }

/-- A node whose clustering primitive returns one cluster holding every point
of its input. -/
def exNode : Node :=
  { cam_model := exCam
    cluster_tolerance := 1 / 2
    min_cluster_size := 1
    max_cluster_size := 25000
    extract := fun _ _ _ cloud => [List.range cloud.length]
    lib := exactLib }

/-- Indeterminate values that happen to be zero everywhere. -/
def exUninit : Nat → Uninit :=
  fun _ => { centroid := { x := 0, y := 0, z := 0, w := 0 }
             cluster_centroid := fun _ => { x := 0, y := 0, z := 0, w := 0 } }

/-- Indeterminate values for one call of `createBoundingBox`. -/
def exGarbage : Vector4f := { x := 0, y := 0, z := 0, w := 0 }

/-- A node whose clustering primitive finds no cluster. -/
def exNodeNoCluster : Node :=
  { exNode with min_cluster_size := 100, extract := fun _ _ _ _ => [] }

/-- The header of the example cloud message. -/
def exHeader : Header := { frame_id := "lidar", stamp := 7 }

/-- A detection whose box is `[0, 2] x [-1, 1]`. -/
def exDetA : Detection2D :=
  { center_x := 1, center_y := 0, size_x := 2, size_y := 2,
    results := [{ id := 1, score := 9 / 10 }] }

/-- A detection whose box is `[9, 11] x [9, 11]`. -/
def exDetB : Detection2D :=
  { center_x := 10, center_y := 10, size_x := 2, size_y := 2,
    results := [{ id := 2, score := 8 / 10 }] }

/-- A detection whose box is `[-5, 5] x [-5, 5]`: it reaches left of the image
origin. -/
def exDetWide : Detection2D :=
  { center_x := 0, center_y := 0, size_x := 10, size_y := 10,
    results := [{ id := 3, score := 1 / 2 }] }

/-- A point that projects to the pixel `(1, 0)`. -/
def exPointA : PointXYZ := { x := 1, y := 0, z := 1 }

/-- A point in front of the camera that projects to the pixel `(-1, 0)`. -/
def exPointLeft : PointXYZ := { x := -1, y := 0, z := 1 }

/-- A transform provider whose first lookup fails and whose later lookups
return the identity. -/
def exLookupsLate : Nat → Option Transform :=
  fun k => if k = 0 then none else some id

/-- A cloud of three points at distance 5, 2 and 8 from the origin. -/
def exCloud3 : PointCloud :=
  [{ x := 3, y := 4, z := 0 }, { x := 0, y := 2, z := 0 }, { x := 0, y := 0, z := 8 }]

/-- A node whose clustering primitive makes one cluster of every point. -/
def exNodeSingletons : Node :=
  { exNode with extract := fun _ _ _ cloud => (List.range cloud.length).map (fun i => [i]) }

/-- A point whose first coordinate is the largest finite `float`. -/
def exPointFar : PointXYZ := { x := FLT_MAX, y := 0, z := 0 }

/-- The inner loop appends to the accumulator the points that pass the test,
in cloud order. -/
theorem frustumLoop_eq (cam : CameraModel) (d : Detection2D) (cloud raw : PointCloud) :
    frustumLoop cam d cloud raw = raw ++ cloud.filter (fun p => inBox cam d p) := by
  unfold frustumLoop
  induction cloud generalizing raw with
  | nil => simp
  | cons p ps ih =>
    simp only [List.foldl_cons, List.filter_cons]
    by_cases h : inBox cam d p = true
    · simp [h, ih]
    · simp [h, ih]

/-- The frustum subset of a detection of the list is defined. -/
theorem frustumSubset_eq (node : Node) (lookups : Nat → Option Transform)
    (uninit : Nat → Uninit) (cloud : PointCloud)
    (ds : List Detection2D) (header : Header) (k : Nat) (d : Detection2D)
    (hd : ds.get? k = some d) :
    frustumSubset node lookups uninit cloud ds header k =
      some ((projectLoop node cloud lookups uninit 0 (LoopState.init header)
        (ds.take k)).detection_cloud_raw ++ cloud.filter (fun p => inBox node.cam_model d p)) := by
  unfold frustumSubset
  rw [hd]
  simp [frustumLoop_eq]

/-- C1, as amended: a point of the cloud with positive depth whose projected
pixel has a positive horizontal coordinate and lies strictly inside the box of
a detection is in the frustum subset of that detection. -/
theorem frustum_inclusion (node : Node) (lookups : Nat → Option Transform)
    (uninit : Nat → Uninit) (cloud : PointCloud)
    (ds : List Detection2D) (header : Header) (k : Nat) (d : Detection2D) (p : PointXYZ)
    (hd : ds.get? k = some d) (hp : p ∈ cloud) (hz : p.z > 0)
    (hu : (node.cam_model.project3dToPixel p).1 > 0)
    (hx1 : d.center_x - d.size_x / 2 < (node.cam_model.project3dToPixel p).1)
    (hx2 : (node.cam_model.project3dToPixel p).1 < d.center_x + d.size_x / 2)
    (hy1 : d.center_y - d.size_y / 2 < (node.cam_model.project3dToPixel p).2)
    (hy2 : (node.cam_model.project3dToPixel p).2 < d.center_y + d.size_y / 2) :
    ∃ subset, frustumSubset node lookups uninit cloud ds header k = some subset ∧
      p ∈ subset := by
  refine ⟨_, frustumSubset_eq node lookups uninit cloud ds header k d hd, ?_⟩
  apply List.mem_append_right
  rw [List.mem_filter]
  refine ⟨hp, ?_⟩
  simp only [inBox, decide_eq_true_eq]
  exact ⟨hz, hu, le_of_lt hx1, le_of_lt hx2, le_of_lt hy1, le_of_lt hy2⟩

/-- Witness of `frustum_inclusion`: the point that projects to `(1, 0)` and the
box `[0, 2] x [-1, 1]`. -/
theorem frustum_inclusion_witness :
    ∃ subset, frustumSubset exNode (fun _ => none) exUninit [exPointA] [exDetA] exHeader 0
        = some subset ∧
      exPointA ∈ subset :=
  frustum_inclusion exNode (fun _ => none) exUninit [exPointA] [exDetA] exHeader 0 exDetA
    exPointA
    (by simp) (by simp) (by norm_num [exPointA])
    (by norm_num [exNode, exCam, exPointA])
    (by norm_num [exNode, exCam, exPointA, exDetA])
    (by norm_num [exNode, exCam, exPointA, exDetA])
    (by norm_num [exNode, exCam, exPointA, exDetA])
    (by norm_num [exNode, exCam, exPointA, exDetA])

/-- C1 fails as stated: a point with positive depth whose pixel `(-1, 0)` lies
strictly inside the box `[-5, 5] x [-5, 5]` is left out of the frustum subset,
because its horizontal pixel coordinate is not positive. -/
theorem frustum_inclusion_counterexample :
    exPointLeft ∈ [exPointLeft] ∧ exPointLeft.z > 0 ∧
    exDetWide.center_x - exDetWide.size_x / 2 < (exCam.project3dToPixel exPointLeft).1 ∧
    (exCam.project3dToPixel exPointLeft).1 < exDetWide.center_x + exDetWide.size_x / 2 ∧
    exDetWide.center_y - exDetWide.size_y / 2 < (exCam.project3dToPixel exPointLeft).2 ∧
    (exCam.project3dToPixel exPointLeft).2 < exDetWide.center_y + exDetWide.size_y / 2 ∧
    frustumSubset exNode (fun _ => none) exUninit [exPointLeft] [exDetWide] exHeader 0
      = some [] := by
  refine ⟨by simp, ?_, ?_, ?_, ?_, ?_, ?_⟩
  · norm_num [exPointLeft]
  · norm_num [exCam, exPointLeft, exDetWide]
  · norm_num [exCam, exPointLeft, exDetWide]
  · norm_num [exCam, exPointLeft, exDetWide]
  · norm_num [exCam, exPointLeft, exDetWide]
  · rw [frustumSubset_eq exNode (fun _ => none) exUninit [exPointLeft] [exDetWide] exHeader 0
      exDetWide (by simp)]
    norm_num [projectLoop, LoopState.init, inBox, exNode, exCam, exPointLeft, exDetWide]

/-- When the only cluster is closer than the initial `min_distance`, the
selector returns its points. -/
theorem euclideanClusterExtraction_single (node : Node) (uninit : Nat → Vector4f)
    (cloud : PointCloud) (idx : List Nat)
    (he : node.extract node.cluster_tolerance node.min_cluster_size node.max_cluster_size cloud
      = [idx])
    (hlt : clusterDistance node cloud (uninit 0) idx < FLT_MAX) :
    euclideanClusterExtraction node uninit cloud = gather cloud idx := by
  unfold euclideanClusterExtraction
  rw [he]
  simp [clusterLoop, clusterStep, hlt]

/-- When the only cluster is not closer than the initial `min_distance`, the
selector returns the empty cloud. -/
theorem euclideanClusterExtraction_out_of_range (node : Node) (uninit : Nat → Vector4f)
    (cloud : PointCloud) (idx : List Nat)
    (he : node.extract node.cluster_tolerance node.min_cluster_size node.max_cluster_size cloud
      = [idx])
    (hfar : FLT_MAX ≤ clusterDistance node cloud (uninit 0) idx) :
    euclideanClusterExtraction node uninit cloud = [] := by
  unfold euclideanClusterExtraction
  rw [he]
  simp [clusterLoop, clusterStep, not_lt.mpr hfar]

/-- The selector on the single point `(1, 0, 1)`, one cluster. -/
theorem euclideanClusterExtraction_example (uninit : Nat → Vector4f) :
    euclideanClusterExtraction exNode uninit [exPointA] = [exPointA] := by
  have he : exNode.extract exNode.cluster_tolerance exNode.min_cluster_size
      exNode.max_cluster_size [exPointA] = [[0]] := by
    simp [exNode, List.range_succ]
  have hg : gather [exPointA] [0] = [exPointA] := by simp [gather]
  have hd : clusterDistance exNode [exPointA] (uninit 0) [0] = 1 := by
    unfold clusterDistance
    rw [hg]
    norm_num [compute3DCentroid, Vector4f.norm, exNode, exactLib, exPointA, Rat.sqrt]
  rw [euclideanClusterExtraction_single exNode uninit [exPointA] [0] he
    (by rw [hd]; norm_num [FLT_MAX]), hg]

/-- C2 fails on the code: when the transform lookup of the first detection
fails, the accumulator keeps the points of the first detection, and the frustum
subset of the second detection holds a point that is outside its box; once the
lookup succeeds that point is clustered and published for the second
detection. -/
theorem frustum_leak :
    frustumSubset exNode exLookupsLate exUninit [exPointA] [exDetA, exDetB] exHeader 1
      = some [exPointA] ∧
    inBox exCam exDetB exPointA = false ∧
    (projectCloud exNode exLookupsLate exUninit [exPointA] [exDetA, exDetB] exHeader).2.points
      = [exPointA] ∧
    (projectCloud exNode exLookupsLate exUninit [exPointA] [exDetA, exDetB]
      exHeader).1.detections.map Detection3D.results = [exDetB.results] := by
  have hA : inBox exCam exDetA exPointA = true := by
    norm_num [inBox, exCam, exPointA, exDetA]
  have hB : inBox exCam exDetB exPointA = false := by
    norm_num [inBox, exCam, exPointA, exDetB]
  have hB2 : inBox exNode.cam_model exDetB exPointA = false := hB
  have hc := euclideanClusterExtraction_example (exUninit (0 + 1)).cluster_centroid
  have h0 : projectStep exNode [exPointA] none (exUninit 0) (LoopState.init exHeader) exDetA =
      { detection_cloud_raw := [exPointA]
        detections3d_msg := { header := exHeader, detections := [] }
        combine_detection_cloud := [] } := by
    simp [projectStep, frustumLoop_eq, cloud2TransformedCloud, LoopState.init, exNode, hA]
  have h1 : projectStep exNode [exPointA] (some id) (exUninit (0 + 1))
      { detection_cloud_raw := [exPointA]
        detections3d_msg := { header := exHeader, detections := [] }
        combine_detection_cloud := [] } exDetB =
      { detection_cloud_raw := []
        detections3d_msg := createBoundingBox exNode (exUninit (0 + 1)).centroid
          { header := exHeader, detections := [] } [exPointA] exDetB.results
        combine_detection_cloud := [exPointA] } := by
    simp [projectStep, frustumLoop_eq, cloud2TransformedCloud, hB2, hc]
  have h2 : projectLoop exNode [exPointA] exLookupsLate exUninit 0 (LoopState.init exHeader)
      [exDetA, exDetB] =
      { detection_cloud_raw := []
        detections3d_msg := createBoundingBox exNode (exUninit (0 + 1)).centroid
          { header := exHeader, detections := [] } [exPointA] exDetB.results
        combine_detection_cloud := [exPointA] } := by
    have e0 : exLookupsLate 0 = none := rfl
    have e1 : exLookupsLate (0 + 1) = some id := rfl
    rw [projectLoop, projectLoop, projectLoop, e0, e1, h0, h1]
  refine ⟨?_, hB, ?_, ?_⟩
  · rw [frustumSubset_eq exNode exLookupsLate exUninit [exPointA] [exDetA, exDetB] exHeader 1
      exDetB (by simp)]
    have e0 : exLookupsLate 0 = none := rfl
    have ht : List.take 1 [exDetA, exDetB] = [exDetA] := rfl
    rw [ht, projectLoop, projectLoop, e0, h0]
    simp [hB2]
  · simp [projectCloud, h2]
  · simp [projectCloud, h2, createBoundingBox, boundingBox]

/-! ## The outer loop of `projectCloud` -/

/-- One iteration appends at most one box, which carries the hypotheses of
its detection. -/
theorem projectStep_results (node : Node) (cloud : PointCloud) (lookup : Option Transform)
    (uninit : Uninit) (st : LoopState) (d : Detection2D) :
    ∃ l, l.Sublist [d.results] ∧
      (projectStep node cloud lookup uninit st d).detections3d_msg.detections.map
          Detection3D.results
        = st.detections3d_msg.detections.map Detection3D.results ++ l := by
  unfold projectStep
  by_cases h : (cloud2TransformedCloud lookup
      (frustumLoop node.cam_model d cloud st.detection_cloud_raw)).isEmpty = true
  · exact ⟨[], by simp, by simp [h]⟩
  · exact ⟨[d.results], by simp, by simp [h, createBoundingBox, boundingBox]⟩

/-- The loop appends to the hypotheses already emitted a sublist of the
hypotheses of the detections it runs over. -/
theorem projectLoop_results (node : Node) (cloud : PointCloud)
    (lookups : Nat → Option Transform) (uninit : Nat → Uninit) (ds : List Detection2D)
    (i : Nat) (st : LoopState) :
    ∃ l, l.Sublist (ds.map Detection2D.results) ∧
      (projectLoop node cloud lookups uninit i st ds).detections3d_msg.detections.map
          Detection3D.results
        = st.detections3d_msg.detections.map Detection3D.results ++ l := by
  induction ds generalizing i st with
  | nil => exact ⟨[], by simp, by simp [projectLoop]⟩
  | cons d rest ih =>
    obtain ⟨l1, hl1, h1⟩ := projectStep_results node cloud (lookups i) (uninit i) st d
    obtain ⟨l2, hl2, h2⟩ := ih (i + 1) (projectStep node cloud (lookups i) (uninit i) st d)
    refine ⟨l1 ++ l2, ?_, ?_⟩
    · have := List.Sublist.append hl1 hl2
      simpa using this
    · rw [projectLoop, h2, h1, List.append_assoc]

/-- C5: the hypothesis lists carried by the boxes that `projectCloud` emits
form a sublist of the hypothesis lists of the input detections, so every box
carries the hypotheses of its source detection unchanged and the boxes keep the
relative order of their sources. -/
theorem projectCloud_order_preserved (node : Node) (lookups : Nat → Option Transform)
    (uninit : Nat → Uninit) (cloud : PointCloud) (ds : List Detection2D) (header : Header) :
    ((projectCloud node lookups uninit cloud ds header).1.detections.map
      Detection3D.results).Sublist (ds.map Detection2D.results) := by
  obtain ⟨l, hl, h⟩ := projectLoop_results node cloud lookups uninit ds 0 (LoopState.init header)
  simp only [projectCloud]
  rw [h]
  simpa [LoopState.init] using hl

/-- On an empty cloud an iteration that starts with an empty accumulator
changes nothing. -/
theorem projectStep_empty_cloud (node : Node) (lookup : Option Transform) (uninit : Uninit)
    (st : LoopState) (d : Detection2D) (h : st.detection_cloud_raw = []) :
    projectStep node [] lookup uninit st d = st := by
  cases st with
  | mk raw msg comb =>
    simp only at h
    subst h
    cases lookup <;> simp [projectStep, frustumLoop, cloud2TransformedCloud]

/-- On an empty cloud the loop leaves a state with an empty accumulator as it
is. -/
theorem projectLoop_empty_cloud (node : Node) (lookups : Nat → Option Transform)
    (uninit : Nat → Uninit) (ds : List Detection2D) (i : Nat) (st : LoopState)
    (h : st.detection_cloud_raw = []) :
    projectLoop node [] lookups uninit i st ds = st := by
  induction ds generalizing i with
  | nil => simp [projectLoop]
  | cons d rest ih =>
    rw [projectLoop, projectStep_empty_cloud node (lookups i) (uninit i) st d h, ih]

/-- C7: the callback publishes an empty detection array, an empty debug cloud
and no marker, whatever the detections and the later lookups, both when the
input cloud message is empty and when the lookup of the aligner fails; so does
`projectCloud` followed by `createMarkerArray` on an empty camera-frame cloud. -/
theorem empty_input (node : Node) (lookup0 : Option Transform)
    (lookups : Nat → Option Transform) (uninit : Nat → Uninit) (cloud_msg : PointCloud2)
    (ds : List Detection2D) (header : Header) :
    syncCallback node lookup0 lookups uninit { header := header, points := [] } ds
      = ({ header := header, detections := [] }, { header := header, points := [] }, []) ∧
    syncCallback node none lookups uninit cloud_msg ds
      = ({ header := cloud_msg.header, detections := [] },
         { header := cloud_msg.header, points := [] }, []) ∧
    projectCloud node lookups uninit [] ds header
      = ({ header := header, detections := [] }, { header := header, points := [] }) ∧
    createMarkerArray (projectCloud node lookups uninit [] ds header).1 = [] := by
  have hp : ∀ h : Header, projectCloud node lookups uninit [] ds h
      = ({ header := h, detections := [] }, { header := h, points := [] }) := by
    intro h
    unfold projectCloud
    rw [projectLoop_empty_cloud node lookups uninit ds 0 (LoopState.init h) rfl]
    rfl
  have hm : ∀ h : Header, createMarkerArray { header := h, detections := [] } = [] := by
    intro h
    simp [createMarkerArray]
  refine ⟨?_, ?_, hp header, ?_⟩
  · cases lookup0 <;> simp [syncCallback, msg2TransformedCloud, hp, hm]
  · simp [syncCallback, msg2TransformedCloud, hp, hm]
  · rw [hp, hm]

/-! ## Independence of the detections -/

/-- C10 fails on the code: with a transform provider that fails at every
lookup, hence gives the same outcome to every lookup of the invocation, the
accumulator `detection_cloud_raw` is not empty at the start of the second
iteration: it still holds the point kept for the first detection, and that
point is in the frustum subset of the second detection, outside whose box it
lies. -/
theorem accumulator_not_cleared :
    (projectLoop exNode [exPointA] (fun _ => none) exUninit 0 (LoopState.init exHeader)
      (([exDetA] ++ [exDetB]).take 1)).detection_cloud_raw = [exPointA] ∧
    frustumSubset exNode (fun _ => none) exUninit [exPointA] ([exDetA] ++ [exDetB]) exHeader 1
      = some [exPointA] ∧
    inBox exCam exDetB exPointA = false := by
  have hA : inBox exNode.cam_model exDetA exPointA = true := by
    norm_num [inBox, exNode, exCam, exPointA, exDetA]
  have hB : inBox exCam exDetB exPointA = false := by
    norm_num [inBox, exCam, exPointA, exDetB]
  have hB2 : inBox exNode.cam_model exDetB exPointA = false := hB
  have h0 : (projectLoop exNode [exPointA] (fun _ => none) exUninit 0 (LoopState.init exHeader)
      (([exDetA] ++ [exDetB]).take 1)).detection_cloud_raw = [exPointA] := by
    have ht : List.take 1 ([exDetA] ++ [exDetB]) = [exDetA] := rfl
    rw [ht, projectLoop, projectLoop]
    simp [projectStep, frustumLoop_eq, cloud2TransformedCloud, LoopState.init, hA]
  refine ⟨h0, ?_, hB⟩
  rw [frustumSubset_eq exNode (fun _ => none) exUninit [exPointA] ([exDetA] ++ [exDetB])
    exHeader 1 exDetB (by simp), h0]
  simp [hB2]

/-! ## The marker builder -/

/-- The index loop of `createMarkerArray` visits the detections in order with
their indices and keeps those whose three sizes are finite. -/
theorem createMarkerArray_enum (header : Header) (l : List Detection3D) :
    createMarkerArray { header := header, detections := l } =
      (l.enum.filter (fun x => x.2.size.x.isfinite && x.2.size.y.isfinite &&
        x.2.size.z.isfinite)).map (fun x => mkMarker header x.1 x.2) := by
  induction l using List.reverseRecOn with
  | nil => simp [createMarkerArray]
  | append_singleton l a ih =>
    unfold createMarkerArray at ih ⊢
    simp only [List.length_append, List.length_singleton, List.range_succ, List.foldl_append,
      List.foldl_cons, List.foldl_nil]
    have hext : ∀ (acc : List Marker) (i : Nat), i ∈ List.range l.length →
        (match (l ++ [a]).get? i with
          | none => acc
          | some d =>
            if d.size.x.isfinite && d.size.y.isfinite && d.size.z.isfinite then
              acc ++ [mkMarker header i d]
            else acc) =
        (match l.get? i with
          | none => acc
          | some d =>
            if d.size.x.isfinite && d.size.y.isfinite && d.size.z.isfinite then
              acc ++ [mkMarker header i d]
            else acc) := by
      intro acc i hi
      rw [List.mem_range] at hi
      rw [List.get?_eq_getElem?, List.get?_eq_getElem?, List.getElem?_append_left hi]
    rw [List.foldl_ext _ _ _ hext, ih]
    have hlast : (l ++ [a]).get? l.length = some a := by simp
    rw [hlast]
    simp only [List.enum_append, List.enumFrom_singleton, List.filter_append, List.map_append]
    by_cases hf : (a.size.x.isfinite && a.size.y.isfinite && a.size.z.isfinite) = true
    · simp [hf, List.filter_cons]
    · simp [hf, List.filter_cons]

/-- Forgetting the indices of a filtered enumeration. -/
theorem enumFrom_filter_map_snd {α β : Type} (P : α → Bool) (g : α → β) (l : List α) (n : Nat) :
    ((l.enumFrom n).filter (fun x => P x.2)).map (fun x => g x.2) = (l.filter P).map g := by
  induction l generalizing n with
  | nil => simp
  | cons a rest ih =>
    simp only [List.enumFrom_cons, List.filter_cons]
    by_cases h : P a = true
    · simp [h, ih]
    · simp [h, ih]

/-- C6: `createMarkerArray` emits, in order, exactly one marker for each
`Detection3D` whose three size components are finite and none for any other;
the marker has the header of the array, the index of its box as id, and the
pose and the scale of that box unchanged. The array that `syncCallback`
publishes is the one `projectCloud` produced, markers or not, and a box of size
`(NaN, 1, 1)` gets no marker. -/
theorem createMarkerArray_finite_only (msg : Detection3DArray) (node : Node)
    (lookup0 : Option Transform) (lookups : Nat → Option Transform) (uninit : Nat → Uninit)
    (cloud_msg : PointCloud2) (ds : List Detection2D) (c : Pose)
    (r : List ObjectHypothesisWithPose) :
    createMarkerArray msg =
      (msg.detections.enum.filter (fun x => x.2.size.x.isfinite && x.2.size.y.isfinite &&
        x.2.size.z.isfinite)).map (fun x => mkMarker msg.header x.1 x.2) ∧
    (createMarkerArray msg).map (fun m => (m.pose, m.scale)) =
      (msg.detections.filter (fun d => d.size.x.isfinite && d.size.y.isfinite &&
        d.size.z.isfinite)).map (fun d => (d.center, d.size)) ∧
    createMarkerArray
      { header := msg.header
        detections := [{ center := c, size := { x := .nan, y := .fin 1, z := .fin 1 },
                         results := r }] } = [] ∧
    (syncCallback node lookup0 lookups uninit cloud_msg ds).1 =
      (projectCloud node lookups uninit (msg2TransformedCloud lookup0 cloud_msg) ds
        cloud_msg.header).1 ∧
    (syncCallback node lookup0 lookups uninit cloud_msg ds).2.2 =
      createMarkerArray (syncCallback node lookup0 lookups uninit cloud_msg ds).1 := by
  have h1 := createMarkerArray_enum msg.header msg.detections
  refine ⟨h1, ?_, ?_, rfl, rfl⟩
  · have h2 : createMarkerArray msg = createMarkerArray
        { header := msg.header, detections := msg.detections } := rfl
    rw [h2, h1, List.map_map]
    exact enumFrom_filter_map_snd
      (fun d => d.size.x.isfinite && d.size.y.isfinite && d.size.z.isfinite)
      (fun d => (d.center, d.size)) msg.detections 0
  · rw [createMarkerArray_enum]
    simp [List.enum, FloatVal.isfinite]

/-! ## The cluster selector -/

/-- One step of the cluster loop either keeps the pair, when the cluster is
not closer, or replaces it by the distance and the points of the cluster, when
it is closer. -/
theorem clusterStep_cases (node : Node) (cloud : PointCloud) (uninit : Vector4f)
    (acc : ℚ × PointCloud) (c : List Nat) :
    (clusterStep node cloud uninit acc c = acc ∧ acc.1 ≤ clusterDistance node cloud uninit c) ∨
    (clusterStep node cloud uninit acc c = (clusterDistance node cloud uninit c, gather cloud c) ∧
      clusterDistance node cloud uninit c < acc.1) := by
  unfold clusterStep
  by_cases hlt : clusterDistance node cloud uninit c < acc.1
  · right
    simp [hlt]
  · left
    simp [hlt, not_lt.mp hlt]

/-- The loop of `euclideanClusterExtraction`: the pair it ends with is either
the pair it started from or the distance and points of one of the clusters; its
distance is at most the initial one and at most that of every cluster. The
cluster at position `j` of the list is handled in iteration `k + j`. -/
theorem clusterLoop_spec (node : Node) (cloud : PointCloud) (uninit : Nat → Vector4f)
    (clusters : List (List Nat)) (k : Nat) (acc : ℚ × PointCloud) :
    (clusterLoop node cloud uninit k acc clusters = acc ∨
      ∃ j idx, clusters.get? j = some idx ∧
        clusterLoop node cloud uninit k acc clusters =
          (clusterDistance node cloud (uninit (k + j)) idx, gather cloud idx)) ∧
    (clusterLoop node cloud uninit k acc clusters).1 ≤ acc.1 ∧
    ∀ j idx, clusters.get? j = some idx →
      (clusterLoop node cloud uninit k acc clusters).1 ≤
        clusterDistance node cloud (uninit (k + j)) idx := by
  induction clusters generalizing k acc with
  | nil => simp [clusterLoop]
  | cons c rest ih =>
    rw [clusterLoop]
    obtain ⟨h1, h2, h3⟩ := ih (k + 1) (clusterStep node cloud (uninit k) acc c)
    have hstep := clusterStep_cases node cloud (uninit k) acc c
    have hidx : ∀ j, k + 1 + j = k + (j + 1) := by
      intro j
      omega
    refine ⟨?_, ?_, ?_⟩
    · rcases h1 with h1 | ⟨j, idx, hj, h1⟩
      · rcases hstep with ⟨hs, _⟩ | ⟨hs, _⟩
        · left
          rw [h1, hs]
        · right
          exact ⟨0, c, rfl, by rw [h1, hs]; rfl⟩
      · right
        refine ⟨j + 1, idx, hj, ?_⟩
        rw [h1, hidx]
    · rcases hstep with ⟨hs, _⟩ | ⟨hs, hlt⟩
      · exact h2.trans (le_of_eq (congrArg Prod.fst hs))
      · exact (h2.trans (le_of_eq (congrArg Prod.fst hs))).trans (le_of_lt hlt)
    · intro j idx hj
      cases j with
      | zero =>
        have hc : c = idx := by simpa using hj
        subst hc
        rcases hstep with ⟨hs, hle⟩ | ⟨hs, _⟩
        · exact (h2.trans (le_of_eq (congrArg Prod.fst hs))).trans hle
        · exact h2.trans (le_of_eq (congrArg Prod.fst hs))
      | succ j =>
        have := h3 j idx (by simpa using hj)
        rw [hidx] at this
        exact this

/-- C3, as amended: when at least one of the clusters returned by the
clustering primitive has a centroid distance (the norm that line 150 computes)
below the initial `min_distance`, the largest finite `float`, the returned
cluster is one of the clusters of the list and its centroid distance is at most
that of every cluster of the list. -/
theorem nearest_cluster_selected (node : Node) (uninit : Nat → Vector4f) (cloud : PointCloud)
    (h : ∃ j idx, (node.extract node.cluster_tolerance node.min_cluster_size
        node.max_cluster_size cloud).get? j = some idx ∧
      clusterDistance node cloud (uninit j) idx < FLT_MAX) :
    ∃ j idx, (node.extract node.cluster_tolerance node.min_cluster_size
        node.max_cluster_size cloud).get? j = some idx ∧
      euclideanClusterExtraction node uninit cloud = gather cloud idx ∧
      ∀ i other, (node.extract node.cluster_tolerance node.min_cluster_size
          node.max_cluster_size cloud).get? i = some other →
        clusterDistance node cloud (uninit j) idx ≤ clusterDistance node cloud (uninit i) other := by
  obtain ⟨w, widx, hw, hlt⟩ := h
  obtain ⟨h1, _, h3⟩ := clusterLoop_spec node cloud uninit
    (node.extract node.cluster_tolerance node.min_cluster_size node.max_cluster_size cloud)
    0 (FLT_MAX, [])
  simp only [Nat.zero_add] at h1 h3
  rcases h1 with h1 | ⟨j, idx, hj, h1⟩
  · have := h3 w widx hw
    rw [h1] at this
    exact absurd (lt_of_le_of_lt this hlt) (lt_irrefl _)
  · refine ⟨j, idx, hj, ?_, ?_⟩
    · simp only [euclideanClusterExtraction]
      rw [h1]
    · intro i other hother
      have := h3 i other hother
      rw [h1] at this
      exact this

/-- The three clusters of the example and their distances: 5, 2 and 8 (the
rational root rounds the roots of 26, 5 and 65 down). -/
theorem exCloud3_distances (uninit : Vector4f) :
    exNodeSingletons.extract exNodeSingletons.cluster_tolerance exNodeSingletons.min_cluster_size
      exNodeSingletons.max_cluster_size exCloud3 = [[0], [1], [2]] ∧
    gather exCloud3 [1] = [{ x := 0, y := 2, z := 0 }] ∧
    clusterDistance exNodeSingletons exCloud3 uninit [0] = 5 ∧
    clusterDistance exNodeSingletons exCloud3 uninit [1] = 2 ∧
    clusterDistance exNodeSingletons exCloud3 uninit [2] = 8 := by
  refine ⟨?_, ?_, ?_, ?_, ?_⟩
  · simp [exNodeSingletons, exNode, exCloud3, List.range_succ]
  · simp [gather, exCloud3]
  · norm_num [clusterDistance, gather, compute3DCentroid, Vector4f.norm, exNodeSingletons, exNode,
      exactLib, exCloud3, Rat.sqrt]
  · norm_num [clusterDistance, gather, compute3DCentroid, Vector4f.norm, exNodeSingletons, exNode,
      exactLib, exCloud3, Rat.sqrt]
  · norm_num [clusterDistance, gather, compute3DCentroid, Vector4f.norm, exNodeSingletons, exNode,
      exactLib, exCloud3, Rat.sqrt]

/-- Witness of `nearest_cluster_selected`: of three clusters at distance 5, 2
and 8 the one at distance 2 is within range, and it is the one returned. -/
theorem nearest_cluster_selected_witness :
    (∃ j idx, (exNodeSingletons.extract exNodeSingletons.cluster_tolerance
        exNodeSingletons.min_cluster_size exNodeSingletons.max_cluster_size exCloud3).get? j
          = some idx ∧
      euclideanClusterExtraction exNodeSingletons (fun _ => exGarbage) exCloud3
        = gather exCloud3 idx ∧
      ∀ i other, (exNodeSingletons.extract exNodeSingletons.cluster_tolerance
          exNodeSingletons.min_cluster_size exNodeSingletons.max_cluster_size exCloud3).get? i
            = some other →
        clusterDistance exNodeSingletons exCloud3 exGarbage idx ≤
          clusterDistance exNodeSingletons exCloud3 exGarbage other) ∧
    euclideanClusterExtraction exNodeSingletons (fun _ => exGarbage) exCloud3
      = [{ x := 0, y := 2, z := 0 }] := by
  obtain ⟨he, hg, hd0, hd1, hd2⟩ := exCloud3_distances exGarbage
  have hF5 : (5 : ℚ) < FLT_MAX := by norm_num [FLT_MAX]
  refine ⟨nearest_cluster_selected exNodeSingletons (fun _ => exGarbage) exCloud3
    ⟨1, [1], by rw [he]; rfl, by rw [hd1]; norm_num [FLT_MAX]⟩, ?_⟩
  unfold euclideanClusterExtraction
  rw [he]
  simp only [clusterLoop, clusterStep, hd0, hd1, hd2, hg]
  rw [if_pos hF5]
  norm_num

/-- The rational root of `n * n + 1` is not below `n`. -/
theorem sqrt_far_le (n : ℕ) : (n : ℚ) ≤ Rat.sqrt ((n : ℚ) * n + 1) := by
  have h : ((n : ℚ) * n + 1) = ((n * n + 1 : ℕ) : ℚ) := by
    push_cast
    ring
  rw [h, Rat.sqrt_natCast]
  exact_mod_cast Nat.le_sqrt.mpr (Nat.le_succ _)

/-- C3 fails as stated: a single cluster whose centroid is as far as the
largest finite `float` never beats the initial `min_distance`, so the list of
clusters is not empty and yet the returned cloud is empty, which is none of the
clusters. -/
theorem nearest_cluster_counterexample :
    exNode.extract exNode.cluster_tolerance exNode.min_cluster_size exNode.max_cluster_size
      [exPointFar] = [[0]] ∧
    gather [exPointFar] [0] = [exPointFar] ∧
    euclideanClusterExtraction exNode (fun _ => exGarbage) [exPointFar] = [] ∧
    ¬ ∃ j idx, (exNode.extract exNode.cluster_tolerance exNode.min_cluster_size
        exNode.max_cluster_size [exPointFar]).get? j = some idx ∧
      euclideanClusterExtraction exNode (fun _ => exGarbage) [exPointFar]
        = gather [exPointFar] idx := by
  have hg : gather [exPointFar] [0] = [exPointFar] := by simp [gather]
  have he : exNode.extract exNode.cluster_tolerance exNode.min_cluster_size
      exNode.max_cluster_size [exPointFar] = [[0]] := by
    simp [exNode, List.range_succ]
  have hd : clusterDistance exNode [exPointFar] exGarbage [0]
      = Rat.sqrt (FLT_MAX * FLT_MAX + 1) := by
    unfold clusterDistance
    rw [hg]
    simp [compute3DCentroid, Vector4f.norm, exNode, exactLib, exPointFar]
  have hfar : FLT_MAX ≤ Rat.sqrt (FLT_MAX * FLT_MAX + 1) := by
    have h := sqrt_far_le 340282346638528859811704183484516925440
    rw [Nat.cast_ofNat] at h
    exact h
  have hres : euclideanClusterExtraction exNode (fun _ => exGarbage) [exPointFar] = [] := by
    apply euclideanClusterExtraction_out_of_range exNode (fun _ => exGarbage) [exPointFar] [0] he
    rw [hd]
    exact hfar
  refine ⟨he, hg, hres, ?_⟩
  rintro ⟨j, idx, hj, hsel⟩
  rw [he] at hj
  rw [hres] at hsel
  cases j with
  | zero =>
    have hidx : [0] = idx := by simpa using hj
    subst hidx
    rw [hg] at hsel
    exact absurd hsel (by simp)
  | succ j => simp at hj

/-! ## The box estimator -/

/-- A running minimum is below its start and below every element, and it is
the start or one of the elements. -/
theorem foldl_min_spec (f : PointXYZ → ℚ) (l : PointCloud) (a : ℚ) :
    l.foldl (fun m p => min m (f p)) a ≤ a ∧
    (∀ p ∈ l, l.foldl (fun m p => min m (f p)) a ≤ f p) ∧
    (l.foldl (fun m p => min m (f p)) a = a ∨
      ∃ p ∈ l, l.foldl (fun m p => min m (f p)) a = f p) := by
  induction l generalizing a with
  | nil => simp
  | cons q rest ih =>
    simp only [List.foldl_cons]
    obtain ⟨h1, h2, h3⟩ := ih (min a (f q))
    refine ⟨h1.trans (min_le_left _ _), ?_, ?_⟩
    · intro p hp
      rcases List.mem_cons.mp hp with rfl | hmem
      · exact h1.trans (min_le_right _ _)
      · exact h2 p hmem
    · rcases h3 with h3 | ⟨p, hp, h3⟩
      · rcases min_choice a (f q) with hm | hm
        · left
          rw [h3, hm]
        · right
          exact ⟨q, List.mem_cons_self _ _, by rw [h3, hm]⟩
      · right
        exact ⟨p, List.mem_cons_of_mem _ hp, h3⟩

/-- A running maximum is above its start and above every element, and it is
the start or one of the elements. -/
theorem foldl_max_spec (f : PointXYZ → ℚ) (l : PointCloud) (a : ℚ) :
    a ≤ l.foldl (fun m p => max m (f p)) a ∧
    (∀ p ∈ l, f p ≤ l.foldl (fun m p => max m (f p)) a) ∧
    (l.foldl (fun m p => max m (f p)) a = a ∨
      ∃ p ∈ l, l.foldl (fun m p => max m (f p)) a = f p) := by
  induction l generalizing a with
  | nil => simp
  | cons q rest ih =>
    simp only [List.foldl_cons]
    obtain ⟨h1, h2, h3⟩ := ih (max a (f q))
    refine ⟨(le_max_left _ _).trans h1, ?_, ?_⟩
    · intro p hp
      rcases List.mem_cons.mp hp with rfl | hmem
      · exact (le_max_right _ _).trans h1
      · exact h2 p hmem
    · rcases h3 with h3 | ⟨p, hp, h3⟩
      · rcases max_choice a (f q) with hm | hm
        · left
          rw [h3, hm]
        · right
          exact ⟨q, List.mem_cons_self _ _, by rw [h3, hm]⟩
      · right
        exact ⟨p, List.mem_cons_of_mem _ hp, h3⟩

/-- The loop of `getMinMax3D`, coordinate by coordinate. -/
theorem getMinMax3D_fold (l : PointCloud) (acc : PointXYZ × PointXYZ) :
    l.foldl
      (fun (acc : PointXYZ × PointXYZ) (pt : PointXYZ) =>
        (({ x := min acc.1.x pt.x, y := min acc.1.y pt.y, z := min acc.1.z pt.z } : PointXYZ),
         ({ x := max acc.2.x pt.x, y := max acc.2.y pt.y, z := max acc.2.z pt.z } : PointXYZ)))
      acc =
    ({ x := l.foldl (fun m p => min m p.x) acc.1.x
       y := l.foldl (fun m p => min m p.y) acc.1.y
       z := l.foldl (fun m p => min m p.z) acc.1.z },
     { x := l.foldl (fun m p => max m p.x) acc.2.x
       y := l.foldl (fun m p => max m p.y) acc.2.y
       z := l.foldl (fun m p => max m p.z) acc.2.z }) := by
  induction l generalizing acc with
  | nil => rfl
  | cons q rest ih => simp only [List.foldl_cons, ih]

/-- The result of `getMinMax3D`, coordinate by coordinate. -/
theorem getMinMax3D_eq (l : PointCloud) :
    getMinMax3D l =
    ({ x := l.foldl (fun m p => min m p.x) FLT_MAX
       y := l.foldl (fun m p => min m p.y) FLT_MAX
       z := l.foldl (fun m p => min m p.z) FLT_MAX },
     { x := l.foldl (fun m p => max m p.x) (-FLT_MAX)
       y := l.foldl (fun m p => max m p.y) (-FLT_MAX)
       z := l.foldl (fun m p => max m p.z) (-FLT_MAX) }) := by
  unfold getMinMax3D
  rw [getMinMax3D_fold]

/-- The largest finite `float` is positive. -/
theorem FLT_MAX_pos : 0 < FLT_MAX := by
  norm_num [FLT_MAX]

/-- A difference that is not negative is, as a `float`, not negative. -/
theorem fsub_nonneg (a b : ℚ) (h : b ≤ a) : (fsub a b).nonneg := by
  unfold fsub
  by_cases h1 : a - b > FLT_MAX
  · simp [h1, FloatVal.nonneg]
  · have h2 : ¬ (a - b < -FLT_MAX) := by
      have := FLT_MAX_pos
      intro h3
      linarith
    simp only [h1, h2, if_false, FloatVal.nonneg]
    linarith

/-- The difference of the two sentinels of `getMinMax3D` overflows. -/
theorem fsub_sentinels : fsub (-FLT_MAX) FLT_MAX = FloatVal.negInf := by
  norm_num [fsub, FLT_MAX]

/-- The box of a cloud that is not empty has sizes that are not negative. -/
theorem boundingBox_nonneg (node : Node) (uninit : Vector4f) (p : PointXYZ) (ps : PointCloud)
    (results : List ObjectHypothesisWithPose) :
    (boundingBox node uninit (p :: ps) results).size.x.nonneg ∧
    (boundingBox node uninit (p :: ps) results).size.y.nonneg ∧
    (boundingBox node uninit (p :: ps) results).size.z.nonneg := by
  simp only [boundingBox, transformPointCloud, List.map_cons, getMinMax3D_eq]
  refine ⟨fsub_nonneg _ _ ?_, fsub_nonneg _ _ ?_, fsub_nonneg _ _ ?_⟩
  · exact ((foldl_min_spec PointXYZ.x _ _).2.1 _ (List.mem_cons_self _ _)).trans
      ((foldl_max_spec PointXYZ.x _ _).2.1 _ (List.mem_cons_self _ _))
  · exact ((foldl_min_spec PointXYZ.y _ _).2.1 _ (List.mem_cons_self _ _)).trans
      ((foldl_max_spec PointXYZ.y _ _).2.1 _ (List.mem_cons_self _ _))
  · exact ((foldl_min_spec PointXYZ.z _ _).2.1 _ (List.mem_cons_self _ _)).trans
      ((foldl_max_spec PointXYZ.z _ _).2.1 _ (List.mem_cons_self _ _))

/-- The box of the empty cloud has the three sizes at minus infinity,
whatever the content of the uninitialised centroid. -/
theorem boundingBox_empty (node : Node) (uninit : Vector4f)
    (results : List ObjectHypothesisWithPose) :
    (boundingBox node uninit [] results).size =
      { x := FloatVal.negInf, y := FloatVal.negInf, z := FloatVal.negInf } := by
  simp [boundingBox, transformPointCloud, getMinMax3D, fsub_sentinels]

/-- The box of any cloud has sizes that are not negative, or all at minus
infinity. -/
theorem boundingBox_size_cases (node : Node) (uninit : Vector4f) (cloud : PointCloud)
    (results : List ObjectHypothesisWithPose) :
    ((boundingBox node uninit cloud results).size.x.nonneg ∧
      (boundingBox node uninit cloud results).size.y.nonneg ∧
      (boundingBox node uninit cloud results).size.z.nonneg) ∨
    (boundingBox node uninit cloud results).size =
      { x := FloatVal.negInf, y := FloatVal.negInf, z := FloatVal.negInf } := by
  cases cloud with
  | nil => exact Or.inr (boundingBox_empty node uninit results)
  | cons p ps => exact Or.inl (boundingBox_nonneg node uninit p ps results)

/-- An iteration keeps a property of the emitted boxes that every box built
by `createBoundingBox` has. -/
theorem projectStep_boxes (node : Node) (cloud : PointCloud) (lookup : Option Transform)
    (uninit : Uninit) (st : LoopState) (d : Detection2D) (Q : Detection3D → Prop)
    (hQ : ∀ u c r, Q (boundingBox node u c r))
    (hst : ∀ box ∈ st.detections3d_msg.detections, Q box) :
    ∀ box ∈ (projectStep node cloud lookup uninit st d).detections3d_msg.detections, Q box := by
  unfold projectStep
  by_cases h : (cloud2TransformedCloud lookup
      (frustumLoop node.cam_model d cloud st.detection_cloud_raw)).isEmpty = true
  · simpa [h] using hst
  · intro box hbox
    simp only [h, createBoundingBox] at hbox
    simp only [Bool.not_false, if_true, List.mem_append, List.mem_singleton] at hbox
    rcases hbox with hbox | hbox
    · exact hst box hbox
    · rw [hbox]
      exact hQ _ _ _

/-- The loop keeps a property of the emitted boxes that every box built by
`createBoundingBox` has. -/
theorem projectLoop_boxes (node : Node) (cloud : PointCloud) (lookups : Nat → Option Transform)
    (uninit : Nat → Uninit) (ds : List Detection2D) (i : Nat) (st : LoopState)
    (Q : Detection3D → Prop) (hQ : ∀ u c r, Q (boundingBox node u c r))
    (hst : ∀ box ∈ st.detections3d_msg.detections, Q box) :
    ∀ box ∈ (projectLoop node cloud lookups uninit i st ds).detections3d_msg.detections,
      Q box := by
  induction ds generalizing i st with
  | nil => simpa [projectLoop] using hst
  | cons d rest ih =>
    rw [projectLoop]
    exact ih (i + 1) _ (projectStep_boxes node cloud (lookups i) (uninit i) st d Q hQ hst)

/-- C8, as amended: a `Detection3D` that `createBoundingBox` builds from a
cluster that is not empty has its three size components not negative; built
from an empty cluster, it has the three of them at minus infinity; and every
`Detection3D` in the array that `projectCloud` returns is of one of these two
kinds. -/
theorem extent_nonneg_or_empty (node : Node) (lookups : Nat → Option Transform)
    (uninit : Nat → Uninit) (cloud : PointCloud) (ds : List Detection2D) (header : Header)
    (garbage : Vector4f) (p : PointXYZ) (ps : PointCloud)
    (results : List ObjectHypothesisWithPose) :
    ((boundingBox node garbage (p :: ps) results).size.x.nonneg ∧
      (boundingBox node garbage (p :: ps) results).size.y.nonneg ∧
      (boundingBox node garbage (p :: ps) results).size.z.nonneg) ∧
    (boundingBox node garbage [] results).size =
      { x := FloatVal.negInf, y := FloatVal.negInf, z := FloatVal.negInf } ∧
    ∀ box ∈ (projectCloud node lookups uninit cloud ds header).1.detections,
      (box.size.x.nonneg ∧ box.size.y.nonneg ∧ box.size.z.nonneg) ∨
      box.size = { x := FloatVal.negInf, y := FloatVal.negInf, z := FloatVal.negInf } := by
  refine ⟨boundingBox_nonneg node garbage p ps results, boundingBox_empty node garbage results,
    ?_⟩
  simp only [projectCloud]
  exact projectLoop_boxes node cloud lookups uninit ds 0 (LoopState.init header) _
    (boundingBox_size_cases node) (by simp [LoopState.init])

/-- An iteration whose back-transformed frustum subset is the single point
`(1, 0, 1)` and whose clustering finds no cluster. -/
theorem projectStep_no_cluster_example (uninit : Uninit) :
    projectStep exNodeNoCluster [exPointA] (some id) uninit (LoopState.init exHeader) exDetA =
      { detection_cloud_raw := []
        detections3d_msg :=
          { header := exHeader
            detections := [boundingBox exNodeNoCluster uninit.centroid [] exDetA.results] }
        combine_detection_cloud := [] } := by
  have hA : inBox exNodeNoCluster.cam_model exDetA exPointA = true := by
    norm_num [inBox, exNodeNoCluster, exNode, exCam, exPointA, exDetA]
  have hc : euclideanClusterExtraction exNodeNoCluster uninit.cluster_centroid [exPointA]
      = [] := by
    simp [euclideanClusterExtraction, clusterLoop, exNodeNoCluster]
  simp [projectStep, frustumLoop_eq, cloud2TransformedCloud, LoopState.init, hA, hc,
    createBoundingBox]

/-- C8 fails as stated: a detection whose frustum subset holds one point and
whose clustering finds no cluster gets a `Detection3D` in the output array, and
its three sizes are minus infinity, which is not `>= 0`. -/
theorem extent_nonneg_counterexample :
    ∃ box, (projectCloud exNodeNoCluster (fun _ => some id) exUninit [exPointA] [exDetA]
        exHeader).1.detections = [box] ∧
      box.size = { x := FloatVal.negInf, y := FloatVal.negInf, z := FloatVal.negInf } ∧
      ¬ box.size.x.nonneg ∧ ¬ box.size.y.nonneg ∧ ¬ box.size.z.nonneg := by
  refine ⟨boundingBox exNodeNoCluster (exUninit 0).centroid [] exDetA.results, ?_, ?_, ?_⟩
  · simp only [projectCloud, projectLoop]
    rw [projectStep_no_cluster_example]
  · exact boundingBox_empty _ _ _
  · rw [boundingBox_empty]
    simp [FloatVal.nonneg]

/-- A box whose sizes are at minus infinity gets no marker. -/
theorem createMarkerArray_negInf (header : Header) (box : Detection3D)
    (h : box.size = { x := FloatVal.negInf, y := FloatVal.negInf, z := FloatVal.negInf }) :
    createMarkerArray { header := header, detections := [box] } = [] := by
  rw [createMarkerArray_enum]
  simp [List.enum, h, FloatVal.isfinite]

/-- C4, as amended: for a detection whose back-transformed frustum subset is
not empty and for which the clustering primitive returns no cluster, the
iteration appends exactly one `Detection3D`, which carries the hypotheses of
the detection and has its three sizes at minus infinity, so that
`createMarkerArray` gives it no marker; no point is added to the debug cloud. -/
theorem no_cluster_box_emitted (node : Node) (cloud : PointCloud) (lookup : Option Transform)
    (uninit : Uninit) (st : LoopState) (d : Detection2D)
    (hne : cloud2TransformedCloud lookup
      (frustumLoop node.cam_model d cloud st.detection_cloud_raw) ≠ [])
    (hnone : node.extract node.cluster_tolerance node.min_cluster_size node.max_cluster_size
      (cloud2TransformedCloud lookup
        (frustumLoop node.cam_model d cloud st.detection_cloud_raw)) = []) :
    ∃ box, (projectStep node cloud lookup uninit st d).detections3d_msg.detections =
        st.detections3d_msg.detections ++ [box] ∧
      box.results = d.results ∧
      box.size = { x := FloatVal.negInf, y := FloatVal.negInf, z := FloatVal.negInf } ∧
      createMarkerArray { header := st.detections3d_msg.header, detections := [box] } = [] ∧
      (projectStep node cloud lookup uninit st d).combine_detection_cloud
        = st.combine_detection_cloud := by
  have hc : euclideanClusterExtraction node uninit.cluster_centroid (cloud2TransformedCloud lookup
      (frustumLoop node.cam_model d cloud st.detection_cloud_raw)) = [] := by
    simp [euclideanClusterExtraction, clusterLoop, hnone]
  have hsize := boundingBox_empty node uninit.centroid d.results
  have hres : (boundingBox node uninit.centroid [] d.results).results = d.results := rfl
  refine ⟨boundingBox node uninit.centroid [] d.results, ?_, hres, hsize,
    createMarkerArray_negInf _ _ hsize, ?_⟩
  · simp [projectStep, hne, hc, createBoundingBox]
  · simp [projectStep, hne, hc]

/-- Witness of `no_cluster_box_emitted`: one point in the box of the detection
and a clustering primitive that finds no cluster. -/
theorem no_cluster_box_emitted_witness :
    ∃ box, (projectStep exNodeNoCluster [exPointA] (some id) (exUninit 0)
        (LoopState.init exHeader) exDetA).detections3d_msg.detections =
        (LoopState.init exHeader).detections3d_msg.detections ++ [box] ∧
      box.results = exDetA.results ∧
      box.size = { x := FloatVal.negInf, y := FloatVal.negInf, z := FloatVal.negInf } ∧
      createMarkerArray
        { header := (LoopState.init exHeader).detections3d_msg.header, detections := [box] }
        = [] ∧
      (projectStep exNodeNoCluster [exPointA] (some id) (exUninit 0) (LoopState.init exHeader)
        exDetA).combine_detection_cloud = (LoopState.init exHeader).combine_detection_cloud :=
  no_cluster_box_emitted exNodeNoCluster [exPointA] (some id) (exUninit 0)
    (LoopState.init exHeader) exDetA
    (by
      have hA : inBox exNodeNoCluster.cam_model exDetA exPointA = true := by
        norm_num [inBox, exNodeNoCluster, exNode, exCam, exPointA, exDetA]
      simp [frustumLoop_eq, cloud2TransformedCloud, LoopState.init, hA])
    (by simp [exNodeNoCluster])

/-- C4 fails as stated: the frustum subset of the detection holds one point,
the clustering primitive returns no cluster, and the output array still holds a
`Detection3D` for that detection. -/
theorem no_cluster_counterexample :
    cloud2TransformedCloud (some id)
      (frustumLoop exNodeNoCluster.cam_model exDetA [exPointA] []) = [exPointA] ∧
    exNodeNoCluster.extract exNodeNoCluster.cluster_tolerance exNodeNoCluster.min_cluster_size
      exNodeNoCluster.max_cluster_size [exPointA] = [] ∧
    (projectCloud exNodeNoCluster (fun _ => some id) exUninit [exPointA] [exDetA]
      exHeader).1.detections.map Detection3D.results = [exDetA.results] := by
  have hA : inBox exNodeNoCluster.cam_model exDetA exPointA = true := by
    norm_num [inBox, exNodeNoCluster, exNode, exCam, exPointA, exDetA]
  refine ⟨?_, by simp [exNodeNoCluster], ?_⟩
  · simp [frustumLoop_eq, cloud2TransformedCloud, hA]
  · simp only [projectCloud, projectLoop]
    rw [projectStep_no_cluster_example]
    rfl

/-! ## Tightness of the box of a unit cube -/

end TrackerWithCloud
